import Mathlib

set_option maxRecDepth 8000

/-!
Shallow embedding of the warehouse inventory chatbot core (main.py):
the intent classifier, the sector/warehouse name resolver, the per-user
conversation state machine of the chat endpoint, and the bounded
question/answer history.  Strings are modelled over their ASCII content;
object identifiers are modelled as strings (an ObjectId and its string
form round-trip, so str(..) and ObjectId(..) are identities here).
-/

/-- Python whitespace class, as used by the regex class backslash-s and str.strip. -/
def isWsC (c : Char) : Bool :=
  c == ' ' || c == '\t' || c == '\n' || c == '\r' || c == '\x0b' || c == '\x0c'

/-- ASCII lowering, modelling str.lower on the ASCII inputs the patterns use. -/
def pyLower (c : Char) : Char :=
  if 'A' ≤ c && c ≤ 'Z' then Char.ofNat (c.toNat + 32) else c

/-- Model of str.strip: drop whitespace at both ends. -/
def pyStripL (s : List Char) : List Char :=
  ((s.dropWhile isWsC).reverse.dropWhile isWsC).reverse

/-- First success over a candidate list, in order; models regex backtracking preference. -/
def firstSome : List α → (α → Option β) → Option β
  | [], _ => none
  | a :: t, f => (f a) <|> firstSome t f

/-- Match a literal at the head of the input, returning the rest. -/
def litP (pat : List Char) (s : List Char) : Option (List Char) :=
  if pat.isPrefixOf s then some (s.drop pat.length) else none

/-- Length of the maximal run of p-characters at the head. -/
def runLen (p : Char → Bool) (s : List Char) : Nat :=
  (s.takeWhile p).length

/-- Remainders after consuming k p-characters, k from maximal down to 1 (greedy plus). -/
def dropCandsDesc1 (p : Char → Bool) (s : List Char) : List (List Char) :=
  let n := runLen p s
  (List.range n).map (fun i => s.drop (n - i))

/-- Remainders after consuming k p-characters, k from maximal down to 0 (greedy star). -/
def dropCandsDesc (p : Char → Bool) (s : List Char) : List (List Char) :=
  let n := runLen p s
  (List.range (n + 1)).map (fun i => s.drop (n - i))

/-- Splits (consumed, rest) after k p-characters, k from maximal down to 1. -/
def splitCandsDesc1 (p : Char → Bool) (s : List Char) : List (List Char × List Char) :=
  let n := runLen p s
  (List.range n).map (fun i => (s.take (n - i), s.drop (n - i)))

/-- Splits (consumed, rest) after k p-characters, k from maximal down to 0. -/
def splitCandsDesc (p : Char → Bool) (s : List Char) : List (List Char × List Char) :=
  let n := runLen p s
  (List.range (n + 1)).map (fun i => (s.take (n - i), s.drop (n - i)))

/-- Greedy backslash-s-plus followed by a continuation. -/
def ws1First (s : List Char) (k : List Char → Option β) : Option β :=
  firstSome (dropCandsDesc1 isWsC s) k

/-- Greedy dot-star (any char except newline) followed by a continuation. -/
def anyStarFirst (s : List Char) (k : List Char → Option β) : Option β :=
  firstSome (dropCandsDesc (fun c => !(c == '\n')) s) k

/-- Greedy optional single character followed by a continuation: consuming is preferred. -/
def optCharFirst (c : Char) (s : List Char) (k : List Char → Option β) : Option β :=
  match s with
  | x :: t => if x == c then (k t <|> k (x :: t)) else k (x :: t)
  | [] => k []

/-- The capturing group of main.py's entity patterns: digits, or letters
then optional spaces then optional digits; alternatives and quantifiers in
regex preference order.  The continuation receives the captured characters
and the rest of the input. -/
def gFirst (s : List Char) (k : List Char → List Char → Option β) : Option β :=
  (firstSome (splitCandsDesc1 Char.isDigit s) fun p => k p.1 p.2) <|>
  (firstSome (splitCandsDesc1 Char.isAlpha s) fun pa =>
    firstSome (splitCandsDesc isWsC pa.2) fun pw =>
      firstSome (splitCandsDesc Char.isDigit pw.2) fun pd =>
        k (pa.1 ++ pw.1 ++ pd.1) pd.2)

/-- re.search: try the matcher at every start position, leftmost first. -/
def searchO (f : List Char → Option α) : List Char → Option α
  | [] => f []
  | c :: t => (f (c :: t)) <|> searchO f t

/-- Matcher for the pattern: show backslash-s-plus dot-star backslash-s-plus sectors? backslash-s-plus list. -/
def showSectorsAt (s : List Char) : Option Unit :=
  (litP "show".data s).bind fun r =>
  ws1First r fun r =>
  anyStarFirst r fun r =>
  ws1First r fun r =>
  (litP "sector".data r).bind fun r =>
  optCharFirst 's' r fun r =>
  ws1First r fun r =>
  (litP "list".data r).map fun _ => ()

/-- Matcher for the pattern: list backslash-s-plus dot-star backslash-s-plus sectors. -/
def listSectorsAt (s : List Char) : Option Unit :=
  (litP "list".data s).bind fun r =>
  ws1First r fun r =>
  anyStarFirst r fun r =>
  ws1First r fun r =>
  (litP "sectors".data r).map fun _ => ()

/-- Matcher for: warehouses? in sector (group), whitespace-separated. -/
def whsAt (s : List Char) : Option (List Char) :=
  (litP "warehouse".data s).bind fun r =>
  optCharFirst 's' r fun r =>
  ws1First r fun r =>
  (litP "in".data r).bind fun r =>
  ws1First r fun r =>
  (litP "sector".data r).bind fun r =>
  ws1First r fun r =>
  gFirst r fun g _ => some g

/-- Matcher for: add dot-star log in warehouse (group1) in sector (group2). -/
def addLogAt (s : List Char) : Option (List Char × List Char) :=
  (litP "add".data s).bind fun r =>
  ws1First r fun r =>
  anyStarFirst r fun r =>
  ws1First r fun r =>
  (litP "log".data r).bind fun r =>
  ws1First r fun r =>
  (litP "in".data r).bind fun r =>
  ws1First r fun r =>
  (litP "warehouse".data r).bind fun r =>
  ws1First r fun r =>
  gFirst r fun g1 r =>
  ws1First r fun r =>
  (litP "in".data r).bind fun r =>
  ws1First r fun r =>
  (litP "sector".data r).bind fun r =>
  ws1First r fun r =>
  gFirst r fun g2 _ => some (g1, g2)

/-- Matcher for: who are you, whitespace-separated. -/
def whoAreYouAt (s : List Char) : Option Unit :=
  (litP "who".data s).bind fun r =>
  ws1First r fun r =>
  (litP "are".data r).bind fun r =>
  ws1First r fun r =>
  (litP "you".data r).map fun _ => ()

/-- Matcher for: previous questions. -/
def prevQ1At (s : List Char) : Option Unit :=
  (litP "previous".data s).bind fun r =>
  ws1First r fun r =>
  (litP "questions".data r).map fun _ => ()

/-- Matcher for: what did I ask — note the literal capital I, exactly as in the source. -/
def prevQ2At (s : List Char) : Option Unit :=
  (litP "what".data s).bind fun r =>
  ws1First r fun r =>
  (litP "did".data r).bind fun r =>
  ws1First r fun r =>
  (litP "I".data r).bind fun r =>
  ws1First r fun r =>
  (litP "ask".data r).map fun _ => ()

/-- Matcher for: what were my questions. -/
def prevQ3At (s : List Char) : Option Unit :=
  (litP "what".data s).bind fun r =>
  ws1First r fun r =>
  (litP "were".data r).bind fun r =>
  ws1First r fun r =>
  (litP "my".data r).bind fun r =>
  ws1First r fun r =>
  (litP "questions".data r).map fun _ => ()

/-- Greeting test: hello or hi or hey or greetings anywhere, or who are you. -/
def greetingMatch (m : List Char) : Bool :=
  (searchO (litP "hello".data) m).isSome || (searchO (litP "hi".data) m).isSome ||
  (searchO (litP "hey".data) m).isSome || (searchO (litP "greetings".data) m).isSome ||
  (searchO whoAreYouAt m).isSome

/-- Previous-questions test: the three alternatives of the source pattern. -/
def prevQuestionsMatch (m : List Char) : Bool :=
  (searchO prevQ1At m).isSome || (searchO prevQ2At m).isSome || (searchO prevQ3At m).isSome

/-- The lowercased character content detect_intent works on. -/
def lowered (m : String) : List Char :=
  m.data.map pyLower

/-- Whether either sector-list pattern matches the lowercased message. -/
def sectorListMatches (m : String) : Bool :=
  (searchO showSectorsAt (lowered m)).isSome || (searchO listSectorsAt (lowered m)).isSome

/-- Leftmost warehouses-in-sector match on the lowercased message, with its captured token. -/
def warehousesInSectorSearch (m : String) : Option (List Char) :=
  searchO whsAt (lowered m)

/-- Leftmost add-log match on the lowercased message, with its two captured tokens. -/
def addLogSearch (m : String) : Option (List Char × List Char) :=
  searchO addLogAt (lowered m)

/-- Python str.isdigit on ASCII content: nonempty and all digits. -/
def isDigitStr (t : List Char) : Bool :=
  !t.isEmpty && t.all Char.isDigit

/-- Canonicalize a captured sector token: strip, and prefix a bare number with Sector. -/
def canonSectorTok (g : List Char) : List Char :=
  let t := pyStripL g
  if isDigitStr t then "Sector ".data ++ t else t

/-- Canonicalize a captured warehouse token: strip, and prefix a bare number with Warehouse. -/
def canonWarehouseTok (g : List Char) : List Char :=
  let t := pyStripL g
  if isDigitStr t then "Warehouse ".data ++ t else t

/-- The typed intents produced by detect_intent. -/
inductive Intent where
  | list_sectors
  | list_warehouses_in_sector (sector_name : String)
  | add_log (warehouse_name sector_name : String)
  | greeting
  | previous_questions
  | unknown
deriving DecidableEq, Repr

/-- detect_intent of main.py: lowercase the message, then try the patterns
in source order — sector list, warehouses in sector, add log, greeting,
previous questions, unknown. -/
def detect_intent (message : String) : Intent :=
  let m := lowered message
  if sectorListMatches message then
    Intent.list_sectors
  else
    match warehousesInSectorSearch message with
    | some g => Intent.list_warehouses_in_sector (String.mk (canonSectorTok g))
    | none =>
      match addLogSearch message with
      | some (g1, g2) =>
        Intent.add_log (String.mk (canonWarehouseTok g1)) (String.mk (canonSectorTok g2))
      | none =>
        if greetingMatch m then Intent.greeting
        else if prevQuestionsMatch m then Intent.previous_questions
        else Intent.unknown


/-- Consume the tail of a Python float digit-part after its first digit:
further digits, with single underscores allowed between digits. -/
def digitsUnd : List Char → List Char
  | [] => []
  | ['_'] => ['_']
  | '_' :: c :: r => if c.isDigit then digitsUnd r else '_' :: c :: r
  | c :: r => if c.isDigit then digitsUnd r else c :: r

/-- Consume a Python float digit-part (at least one digit), returning the rest. -/
def digitpartP (s : List Char) : Option (List Char) :=
  match s with
  | c :: r => if c.isDigit then some (digitsUnd r) else none
  | [] => none

/-- Accept an optional exponent then end of input, per the float literal grammar. -/
def expEnd (s : List Char) : Bool :=
  match s with
  | [] => true
  | e :: r =>
    if e == 'e' || e == 'E' then
      let r2 := match r with
        | c :: r' => if c == '+' || c == '-' then r' else c :: r'
        | [] => []
      match digitpartP r2 with
      | some [] => true
      | _ => false
    else false

/-- Accept the unsigned numeric part of a Python float literal. -/
def pyFloatNum (s : List Char) : Bool :=
  match digitpartP s with
  | some r =>
    let r2 := match r with
      | '.' :: r' =>
        (match digitpartP r' with
         | some r'' => r''
         | none => r')
      | _ => r
    expEnd r2
  | none =>
    match s with
    | '.' :: r' =>
      (match digitpartP r' with
       | some r'' => expEnd r''
       | none => false)
    | _ => false

/-- Case-insensitive character-list equality (ASCII). -/
def ciEqL (a b : List Char) : Bool :=
  a.map pyLower == b.map pyLower

/-- Case-insensitive string equality, modelling an anchored regex with option i. -/
def ciEqS (a b : String) : Bool :=
  ciEqL a.data b.data

/-- Whether Python float(s) succeeds: strip whitespace, optional sign, then
inf, infinity, nan (case-insensitive) or a numeric literal. -/
def isPyFloat (s : List Char) : Bool :=
  let t := pyStripL s
  let t2 := match t with
    | c :: r => if c == '+' || c == '-' then r else c :: r
    | [] => []
  ciEqL t2 "inf".data || ciEqL t2 "infinity".data || ciEqL t2 "nan".data || pyFloatNum t2

/-- Append to a deque with maxlen 10: the oldest entry is evicted when full. -/
def dequeAppend (q : List String) (x : String) : List String :=
  let q2 := q ++ [x]
  if q2.length > 10 then q2.drop (q2.length - 10) else q2

/-- Python dict write d[k] = v on a string-keyed association list:
update in place if the key exists, else append; insertion order kept. -/
def setK (m : List (String × α)) (k : String) (v : α) : List (String × α) :=
  if m.any (fun p => p.1 == k) then
    m.map (fun p => if p.1 == k then (k, v) else p)
  else m ++ [(k, v)]

/-- Python dict read with a default (used for the lazily created per-user entries). -/
def lookupD (m : List (String × α)) (k : String) (d : α) : α :=
  match m.find? (fun p => p.1 == k) with
  | some p => p.2
  | none => d

/-- A value stored in a log record: a parsed number (kept as its literal) or a string. -/
inductive PyVal where
  | num (lit : String)
  | str (s : String)
deriving DecidableEq, Repr

/-- A sector document: identifier, name, creator, soft-delete flag. -/
structure Sector where
  sid : String
  name : String
  creator : String
  deleted : Bool
deriving DecidableEq, Repr

/-- A warehouse column definition: display title and storage key. -/
structure Column where
  title : String
  dataIndex : String
deriving DecidableEq, Repr

/-- A warehouse document: identifier, name, creator, parent sector, columns. -/
structure Warehouse where
  wid : String
  name : String
  creator : String
  sector : String
  columns : List Column
deriving DecidableEq, Repr

/-- A log document as inserted by add_log_data. -/
structure LogEntry where
  warehouse : String
  creator : String
  logData : List (String × PyVal)
deriving DecidableEq, Repr

/-- Backend store failure, raised by every collection operation when the
backend is unavailable. -/
inductive DbErr where
  | ioFailure
deriving DecidableEq, Repr

/-- The document store: three collections in natural order, plus a flag
modelling backend I/O failure. -/
structure Db where
  sectors : List Sector
  warehouses : List Warehouse
  logdatas : List LogEntry
  failing : Bool
deriving DecidableEq, Repr

/-- find_one on sectors with exact name, creator and deleted false. -/
def findExactSector (db : Db) (sector_name user_id : String) : Except DbErr (Option Sector) :=
  if db.failing then .error .ioFailure
  else .ok (db.sectors.find? fun s =>
    s.name == sector_name && s.creator == user_id && s.deleted == false)

/-- find_one on sectors with anchored case-insensitive name, creator and deleted false. -/
def findCiSector (db : Db) (sector_name user_id : String) : Except DbErr (Option Sector) :=
  if db.failing then .error .ioFailure
  else .ok (db.sectors.find? fun s =>
    ciEqS s.name sector_name && s.creator == user_id && s.deleted == false)

/-- find on sectors by creator and deleted false, in natural order. -/
def allUserSectors (db : Db) (user_id : String) : Except DbErr (List Sector) :=
  if db.failing then .error .ioFailure
  else .ok (db.sectors.filter fun s => s.creator == user_id && s.deleted == false)

/-- Remove every occurrence of the literal Sector-space from a name,
modelling str.replace with an empty replacement. -/
def removeSectorSub : List Char → List Char
  | 'S' :: 'e' :: 'c' :: 't' :: 'o' :: 'r' :: ' ' :: r => removeSectorSub r
  | c :: r => c :: removeSectorSub r
  | [] => []

/-- The numeric token the suffix tier scans with: drop Sector-space and strip. -/
def sectorNumToken (sector_name : String) : List Char :=
  pyStripL (removeSectorSub sector_name.data)

/-- The numeric-suffix tier: only for tokens starting with Sector-space;
scan the user's live sectors and take the first whose name ends with the
numeric token. -/
def findSuffixSector (db : Db) (sector_name user_id : String) : Except DbErr (Option Sector) :=
  if ("Sector ".data).isPrefixOf sector_name.data then
    (allUserSectors db user_id).map fun all =>
      all.find? fun s => (sectorNumToken sector_name).isSuffixOf s.name.data
  else .ok none

/-- parse_sector_id before its catch-all handler: the three tiers in order,
each consulted only when the previous found nothing. -/
def parse_sector_idE (db : Db) (sector_name user_id : String) : Except DbErr (Option String) :=
  (findExactSector db sector_name user_id).bind fun t1 =>
  match t1 with
  | some s => .ok (some s.sid)
  | none =>
    (findCiSector db sector_name user_id).bind fun t2 =>
    match t2 with
    | some s => .ok (some s.sid)
    | none =>
      (findSuffixSector db sector_name user_id).bind fun t3 =>
      match t3 with
      | some s => .ok (some s.sid)
      | none => .ok none

/-- parse_sector_id of main.py: any exception is swallowed and becomes None. -/
def parse_sector_id (db : Db) (sector_name user_id : String) : Option String :=
  match parse_sector_idE db sector_name user_id with
  | .ok r => r
  | .error _ => none

/-- parse_warehouse_id of main.py: case-insensitive name within a sector for
a creator; exceptions swallowed to None. -/
def parse_warehouse_id (db : Db) (warehouse_name sector_id user_id : String) : Option String :=
  if db.failing then none
  else
    match db.warehouses.find? (fun w =>
      ciEqS w.name warehouse_name && w.sector == sector_id && w.creator == user_id) with
    | some w => some w.wid
    | none => none

/-- get_user_sectors of main.py: live sectors of a creator; errors swallowed to an empty list. -/
def get_user_sectors (db : Db) (user_id : String) : List Sector :=
  if db.failing then []
  else db.sectors.filter fun s => s.creator == user_id && s.deleted == false

/-- get_user_warehouses_in_sector of main.py: a creator's warehouses in a
sector; errors swallowed to an empty list. -/
def get_user_warehouses_in_sector (db : Db) (user_id sector_id : String) : List Warehouse :=
  if db.failing then []
  else db.warehouses.filter fun w => w.creator == user_id && w.sector == sector_id

/-- get_warehouse_columns of main.py: columns of a warehouse found by id;
not-found and errors both give None. -/
def get_warehouse_columns (db : Db) (warehouse_id : String) : Option (List Column) :=
  if db.failing then none
  else
    match db.warehouses.find? (fun w => w.wid == warehouse_id) with
    | some w => some w.columns
    | none => none

/-- add_log_data of main.py: insert one log document; errors are swallowed,
leaving the store unchanged. -/
def add_log_data (db : Db) (warehouse_id user_id : String)
    (log_data : List (String × PyVal)) : Db :=
  if db.failing then db
  else { db with logdatas := db.logdatas ++ [⟨warehouse_id, user_id, log_data⟩] }

/-- The per-user conversation state of main.py, with its defaults. -/
structure ConversationState where
  stage : String := "initial"
  warehouse_id : Option String := none
  sector_id : Option String := none
  pending_columns : List Column := []
  current_column_index : Nat := 0
  log_data : List (String × PyVal)
deriving DecidableEq, Repr

/-- A fresh ConversationState: its record is pre-seeded with the creation timestamp. -/
def initConversationState (now : String) : ConversationState :=
  { log_data := [("day", PyVal.str now)] }

/-- Uncaught Python exceptions the chat endpoint can raise. -/
inductive RunErr where
  | indexError
  | typeError
deriving DecidableEq, Repr

/-- The whole server state: the store plus the three per-user dictionaries. -/
structure ServerState where
  db : Db
  conversation_states : List (String × ConversationState)
  user_questions : List (String × List String)
  user_responses : List (String × List String)
deriving DecidableEq, Repr

/-- The server state left behind by one turn: the store, the stored
session, the stored question history, and the reply appended to the
response history. -/
def turnResult (srv : ServerState) (user_id : String) (db : Db) (st : ConversationState)
    (qs : List String) (resp : String) : ServerState :=
  { db := db
    conversation_states := setK srv.conversation_states user_id st
    user_questions := setK srv.user_questions user_id qs
    user_responses := setK srv.user_responses user_id
      (dequeAppend (lookupD srv.user_responses user_id []) resp) }

/-- Assemble the post-turn server state and reply: store the session and the
question history, and append the reply to the response history. -/
def finishTurn (srv : ServerState) (user_id : String) (db : Db) (st : ConversationState)
    (qs : List String) (rs0 : List String) (resp : String) :
    Except RunErr (ServerState × String) :=
  .ok ({ db := db,
         conversation_states := setK srv.conversation_states user_id st,
         user_questions := setK srv.user_questions user_id qs,
         user_responses := setK srv.user_responses user_id (dequeAppend rs0 resp) }, resp)

/-- The session stored when an AddLog sub-dialog starts: collecting stage,
active identifiers, the filtered columns, cursor zero; the record is left
as it was. -/
def startedState (st : ConversationState) (wid sid : String) (pend : List Column) :
    ConversationState :=
  { st with
    stage := "collecting_inventory"
    warehouse_id := some wid
    sector_id := some sid
    pending_columns := pend
    current_column_index := 0 }

/-- The session after one accepted numeric reply: the value is stored under
the given key and the cursor advances. -/
def stepState (st : ConversationState) (key : String) (v : PyVal) : ConversationState :=
  { st with
    log_data := setK st.log_data key v
    current_column_index := st.current_column_index + 1 }

/-- The chat endpoint of main.py for one turn: record the question unless it
is one of the two excluded recall phrases, then either advance the
collecting-inventory sub-dialog or classify the intent and dispatch. -/
def chat_endpoint (now : String) (srv : ServerState) (user_id content : String) :
    Except RunErr (ServerState × String) :=
  let qs0 := lookupD srv.user_questions user_id []
  let rs0 := lookupD srv.user_responses user_id []
  let lowStripped := String.mk (pyStripL (content.data.map pyLower))
  let qs1 :=
    if lowStripped = "what were my previous questions?" ∨ lowStripped = "what did i ask before?"
    then qs0 else dequeAppend qs0 content
  let st := lookupD srv.conversation_states user_id (initConversationState now)
  if st.stage = "collecting_inventory" then
    if isPyFloat content.data then
      match st.pending_columns[st.current_column_index]? with
      | none => .error .indexError
      | some current_column =>
        let log_data2 :=
          setK st.log_data current_column.dataIndex (PyVal.num (String.mk (pyStripL content.data)))
        let idx2 := st.current_column_index + 1
        if idx2 ≥ st.pending_columns.length then
          match st.warehouse_id with
          | none => .error .typeError
          | some wid =>
            finishTurn srv user_id (add_log_data srv.db wid user_id log_data2)
              (initConversationState now) qs1 rs0 "Thanks, your log has been added successfully."
        else
          match st.pending_columns[idx2]? with
          | none => .error .indexError
          | some next_column =>
            finishTurn srv user_id srv.db
              { st with log_data := log_data2, current_column_index := idx2 } qs1 rs0
              ("Thanks, now please provide inventory count for " ++ next_column.title ++ ".")
    else
      finishTurn srv user_id srv.db st qs1 rs0
        "Please provide a valid number for the inventory count."
  else
    match detect_intent content with
    | Intent.list_sectors =>
      let sectors := get_user_sectors srv.db user_id
      if sectors.isEmpty then
        finishTurn srv user_id srv.db st qs1 rs0 "You haven\x27t created any sectors yet."
      else
        finishTurn srv user_id srv.db st qs1 rs0
          ("Your created sectors are: " ++ String.intercalate ", " (sectors.map (·.name)) ++ ".")
    | Intent.list_warehouses_in_sector sector_name =>
      match parse_sector_id srv.db sector_name user_id with
      | none =>
        finishTurn srv user_id srv.db st qs1 rs0
          ("I couldn\x27t find Sector " ++ sector_name ++ " in your account.")
      | some sector_id =>
        let warehouses := get_user_warehouses_in_sector srv.db user_id sector_id
        if warehouses.isEmpty then
          finishTurn srv user_id srv.db st qs1 rs0
            ("You don\x27t have any warehouses in Sector " ++ sector_name ++ ".")
        else
          finishTurn srv user_id srv.db st qs1 rs0
            ("Warehouses in " ++ sector_name ++ " are: " ++
             String.intercalate ", " (warehouses.map (·.name)) ++ ".")
    | Intent.add_log warehouse_name sector_name =>
      match parse_sector_id srv.db sector_name user_id with
      | none =>
        finishTurn srv user_id srv.db st qs1 rs0
          ("I couldn\x27t find Sector " ++ sector_name ++ " in your account.")
      | some sector_id =>
        match parse_warehouse_id srv.db warehouse_name sector_id user_id with
        | none =>
          finishTurn srv user_id srv.db st qs1 rs0
            ("I couldn\x27t find Warehouse " ++ warehouse_name ++ " in Sector " ++
             sector_name ++ ".")
        | some warehouse_id =>
          match get_warehouse_columns srv.db warehouse_id with
          | none => .error .typeError
          | some columns =>
            match columns.filter (fun c => !(c.dataIndex == "day")) with
            | [] =>
              finishTurn srv user_id srv.db st qs1 rs0
                "This warehouse doesn\x27t have any inventory columns defined."
            | first_column :: rest =>
              finishTurn srv user_id srv.db
                { st with stage := "collecting_inventory",
                          warehouse_id := some warehouse_id,
                          sector_id := some sector_id,
                          pending_columns := first_column :: rest,
                          current_column_index := 0 } qs1 rs0
                ("Please provide inventory count for " ++ first_column.title ++ ".")
    | Intent.greeting =>
      finishTurn srv user_id srv.db st qs1 rs0
        "Hello! I\x27m your warehouse inventory assistant. I can help you manage sectors, warehouses, and inventory logs. What would you like to do today?"
    | Intent.previous_questions =>
      if qs1.isEmpty then
        finishTurn srv user_id srv.db st qs1 rs0 "You haven\x27t asked me any questions yet."
      else
        finishTurn srv user_id srv.db st qs1 rs0
          ("Your previous questions were:\n" ++ String.intercalate "\n"
            ((List.range qs1.length).map fun i =>
              toString (i + 1) ++ ". " ++ qs1.getD i ""))
    | Intent.unknown =>
      finishTurn srv user_id srv.db st qs1 rs0
        "I\x27m your warehouse inventory assistant. I can help with:\n- Showing your sectors list\n- Showing warehouses in a sector\n- Adding inventory logs\n\nCould you please phrase your request related to warehouse inventory management?"

/-- Run a sequence of timestamped messages for one user, stopping on an
uncaught exception. -/
def runTurns (user_id : String) : ServerState → List (String × String) → Option ServerState
  | srv, [] => some srv
  | srv, (now, msg) :: rest =>
    match chat_endpoint now srv user_id msg with
    | .ok (srv2, _) => runTurns user_id srv2 rest
    | .error _ => none

/-- The reply of a turn, when it did not raise. -/
def replyOf (e : Except RunErr (ServerState × String)) : Option String :=
  match e with
  | .ok p => some p.2
  | .error _ => none

/-- The retained question history of a user after a turn, when it did not raise. -/
def questionsOf (e : Except RunErr (ServerState × String)) (user_id : String) :
    Option (List String) :=
  match e with
  | .ok p => some (lookupD p.1.user_questions user_id [])
  | .error _ => none

/-- Store with a single live sector named Sector 12 for user u. -/
def dbSuffixA : Db :=
  { sectors := [⟨"s12", "Sector 12", "u", false⟩]
    warehouses := []
    logdatas := []
    failing := false }

/-- Store with live sectors Sector 12 then Sector 42 for user u; both names
end with the digit 2 and neither equals Sector 2. -/
def dbSuffixB : Db :=
  { sectors := [⟨"s12", "Sector 12", "u", false⟩, ⟨"s42", "Sector 42", "u", false⟩]
    warehouses := []
    logdatas := []
    failing := false }

/-- Store for the C1 witness: one live sector owned by u1, and a second
store whose only sector with the same name belongs to u2. -/
def dbOwnerA : Db :=
  { sectors := [⟨"sid1", "Sector 1", "u1", false⟩]
    warehouses := []
    logdatas := []
    failing := false }

/-- Store whose sector Sector 1 belongs to user u2 only. -/
def dbOwnerB : Db :=
  { sectors := [⟨"sidB", "Sector 1", "u2", false⟩]
    warehouses := []
    logdatas := []
    failing := false }

/-- Store for the C5 witness: the case-insensitive match SECTOR 2 is listed
after Sector 12, whose name also ends with the digit 2; the
case-insensitive tier must win over the earlier suffix candidate. -/
def dbCiWins : Db :=
  { sectors := [⟨"sB", "Sector 12", "u", false⟩, ⟨"sA", "SECTOR 2", "u", false⟩]
    warehouses := []
    logdatas := []
    failing := false }

/-- A message matching the AddLog pattern whose free middle span also
contains a warehouses-in-sector match. -/
def shadowedMsg : String := "add warehouses in sector 5 log in warehouse 1 in sector 2"

/-- An empty, live store. -/
def dbEmpty : Db :=
  { sectors := []
    warehouses := []
    logdatas := []
    failing := false }

/-- A fresh server: empty store, no sessions, no histories. -/
def srvFresh : ServerState := ⟨dbEmpty, [], [], []⟩

/-- A failing store that nonetheless contains the live sector the user asks
about: the backend is down, not the data missing. -/
def dbC7Fail : Db :=
  { sectors := [⟨"s5", "Sector 5", "u", false⟩]
    warehouses := []
    logdatas := []
    failing := true }

/-- Server over the failing store, with no prior sessions. -/
def srvC7Fail : ServerState := ⟨dbC7Fail, [], [], []⟩

/-- The question list stored by a turn: unchanged for the two excluded
recall phrases, otherwise the message is appended. -/
def storedQuestions (srv : ServerState) (uid msg : String) : List String :=
  if String.mk (pyStripL (List.map pyLower msg.data)) = "what were my previous questions?" ∨
      String.mk (pyStripL (List.map pyLower msg.data)) = "what did i ask before?" then
    lookupD srv.user_questions uid []
  else dequeAppend (lookupD srv.user_questions uid []) msg

/-- Store for the C2 witness: one sector, one warehouse with a day column
and three inventory columns. -/
def dbC2 : Db :=
  { sectors := [⟨"s1", "Sector 1", "uu", false⟩]
    warehouses := [⟨"w1", "Warehouse 1", "uu", "s1",
      [⟨"Day", "day"⟩, ⟨"qty", "qty"⟩, ⟨"weight", "weight"⟩, ⟨"volume", "volume"⟩]⟩]
    logdatas := []
    failing := false }

/-- Fresh server over the C2 witness store. -/
def srvC2 : ServerState := ⟨dbC2, [], [], []⟩

/-- Store for the C6 scenario: one sector and a warehouse with the day
column and one inventory column. -/
def dbC6 : Db :=
  { sectors := [⟨"s1", "Sector 1", "u", false⟩]
    warehouses := [⟨"w1", "Warehouse 1", "u", "s1", [⟨"Day", "day"⟩, ⟨"qty", "qty"⟩]⟩]
    logdatas := []
    failing := false }

/-- Fresh server over the C6 store. -/
def srvC6 : ServerState := ⟨dbC6, [], [], []⟩

/-- Server for the C4 witness: a user mid-collection on one pending column. -/
def srvC4 : ServerState :=
  ⟨dbC6,
   [("u", ⟨"collecting_inventory", some "w1", some "s1", [⟨"qty", "qty"⟩], 0,
     [("day", PyVal.str "T0")]⟩)],
   [], []⟩

/-- Updating-in-place puts the new value at the key, in any map containing the key. -/
theorem find?_map_update (k : String) (v : α) :
    ∀ t : List (String × α), t.any (fun p => p.1 == k) = true →
      (t.map (fun p => if p.1 == k then (k, v) else p)).find? (fun p => p.1 == k) =
        some (k, v) := by
  intro t
  induction t with
  | nil => intro h; simp at h
  | cons q r ih =>
    intro h
    by_cases hq : q.1 = k
    · rw [List.map_cons]
      have h1 : (if (q.1 == k) = true then (k, v) else q) = (k, v) := by simp [hq]
      rw [h1, List.find?_cons_of_pos _ (by simp)]
    · have hq' : (q.1 == k) = false := by simp [hq]
      rw [List.map_cons]
      have h1 : (if (q.1 == k) = true then (k, v) else q) = q := by simp [hq']
      rw [h1, List.find?_cons_of_neg _ (by simp [hq])]
      apply ih
      simpa [List.any_cons, hq'] using h

/-- Writing a key makes it the value found for that key. -/
theorem find?_setK (m : List (String × α)) (k : String) (v : α) :
    (setK m k v).find? (fun p => p.1 == k) = some (k, v) := by
  by_cases ha : m.any (fun p => p.1 == k)
  · rw [setK, if_pos ha]
    exact find?_map_update k v m ha
  · have hnone : m.find? (fun p => p.1 == k) = none := by
      rw [List.find?_eq_none]
      intro p hp
      simp only [beq_iff_eq]
      intro he
      exact absurd (List.any_eq_true.mpr ⟨p, hp, by simp [he]⟩) ha
    rw [setK, if_neg ha, List.find?_append, hnone]
    simp [List.find?]

/-- Reading back the key just written returns the value written. -/
theorem lookupD_setK (m : List (String × α)) (k : String) (v : α) (d : α) :
    lookupD (setK m k v) k d = v := by
  simp [lookupD, find?_setK]

/-- The key set of a dict after a write is the old key set plus the written key. -/
theorem mem_keys_setK (m : List (String × α)) (k0 : String) (v : α) (x : String) :
    x ∈ (setK m k0 v).map Prod.fst ↔ (x ∈ m.map Prod.fst ∨ x = k0) := by
  by_cases ha : m.any (fun p => p.1 == k0)
  · have hk0 : k0 ∈ m.map Prod.fst := by
      simp only [List.any_eq_true, beq_iff_eq] at ha
      obtain ⟨p, hp, he⟩ := ha
      exact List.mem_map.mpr ⟨p, hp, he⟩
    have hkeys : (setK m k0 v).map Prod.fst = m.map Prod.fst := by
      rw [setK, if_pos ha, List.map_map]
      refine List.map_congr_left ?_
      intro p _
      by_cases hp : p.1 = k0 <;> simp [hp]
    rw [hkeys]
    constructor
    · exact Or.inl
    · rintro (h | rfl)
      · exact h
      · exact hk0
  · rw [setK, if_neg ha, List.map_append, List.mem_append]
    simp

/-- One deque append, as a drop of the extended list. -/
theorem dequeAppend_eq_drop (q : List String) (x : String) (h : q.length ≤ 10) :
    dequeAppend q x = (q ++ [x]).drop (q.length + 1 - 10) := by
  simp only [dequeAppend]
  have hl : (q ++ [x]).length = q.length + 1 := by simp
  by_cases hgt : (q ++ [x]).length > 10
  · rw [if_pos hgt, hl]
  · rw [if_neg hgt]
    have h0 : q.length + 1 - 10 = 0 := by rw [hl] at hgt; omega
    rw [h0, List.drop_zero]

/-- A deque append never exceeds the capacity. -/
theorem dequeAppend_length_le (q : List String) (x : String) :
    (dequeAppend q x).length ≤ 10 := by
  simp only [dequeAppend]
  by_cases hgt : (q ++ [x]).length > 10
  · rw [if_pos hgt, List.length_drop]
    omega
  · rw [if_neg hgt]
    omega

/-- Folding appends into a deque keeps exactly the newest ten entries. -/
theorem foldl_dequeAppend (xs : List String) :
    ∀ q : List String, q.length ≤ 10 →
      List.foldl dequeAppend q xs = (q ++ xs).drop (q.length + xs.length - 10) := by
  induction xs with
  | nil =>
    intro q h
    simp only [List.foldl_nil, List.append_nil, List.length_nil, Nat.add_zero]
    have h0 : q.length - 10 = 0 := by omega
    rw [h0, List.drop_zero]
  | cons x xs ih =>
    intro q h
    rw [List.foldl_cons, ih (dequeAppend q x) (dequeAppend_length_le q x),
      dequeAppend_eq_drop q x h]
    have hd : q.length + 1 - 10 ≤ (q ++ [x]).length := by simp; omega
    rw [List.length_drop, ← List.drop_append_of_le_length hd, List.drop_drop]
    have hl : (q ++ [x]) ++ xs = q ++ x :: xs := by simp
    rw [hl]
    congr 1
    simp only [List.length_append, List.length_cons, List.length_nil]
    omega

/-- C8: the retained question and answer histories are bounded by capacity
ten with oldest-evicted-first semantics, the bound is preserved by every
append, and appending twelve entries for one user retains exactly the last
ten in arrival order. -/
theorem history_capacity_bound :
    (∀ (q : List String) (x : String), q.length ≤ 10 →
       (dequeAppend q x).length ≤ 10 ∧
       dequeAppend q x = (q ++ [x]).drop (q.length + 1 - 10)) ∧
    (∀ xs : List String, xs.length = 12 →
       List.foldl dequeAppend [] xs = xs.drop 2) := by
  constructor
  · intro q x h
    exact ⟨dequeAppend_length_le q x, dequeAppend_eq_drop q x h⟩
  · intro xs h12
    rw [foldl_dequeAppend xs [] (by simp)]
    simp [h12]

/-- C8 witness: twelve concrete questions keep exactly the last ten. -/
theorem history_capacity_bound_witness :
    List.foldl dequeAppend []
      ["q1", "q2", "q3", "q4", "q5", "q6", "q7", "q8", "q9", "q10", "q11", "q12"] =
      ["q3", "q4", "q5", "q6", "q7", "q8", "q9", "q10", "q11", "q12"] := by
  rw [history_capacity_bound.2 _ (by decide)]
  decide

/-- C9: the numeric-suffix tier accepts the first live sector whose name
merely ends with the digit string: with only Sector 12 owned, the token
Sector 2 resolves to Sector 12 rather than to nothing, and with Sector 12
listed before Sector 42 the first suffix match wins. -/
theorem numeric_suffix_endswith :
    parse_sector_id dbSuffixA "Sector 2" "u" = some "s12" ∧
    parse_sector_id dbSuffixB "Sector 2" "u" = some "s12" := by
  constructor <;> rfl

/-- With a live backend, parse_sector_id is the pure three-tier cascade over
the sector collection. -/
theorem parse_sector_id_eq_pure (db : Db) (n u : String) (hf : db.failing = false) :
    parse_sector_id db n u =
      (match db.sectors.find? (fun s => s.name == n && s.creator == u && s.deleted == false) with
       | some s => some s.sid
       | none =>
         match db.sectors.find? (fun s => ciEqS s.name n && s.creator == u && s.deleted == false) with
         | some s => some s.sid
         | none =>
           if ("Sector ".data).isPrefixOf n.data then
             match (db.sectors.filter (fun s => s.creator == u && s.deleted == false)).find?
                 (fun s => (sectorNumToken n).isSuffixOf s.name.data) with
             | some s => some s.sid
             | none => none
           else none) := by
  unfold parse_sector_id parse_sector_idE findExactSector findCiSector findSuffixSector
    allUserSectors
  rw [hf]
  simp only [Bool.false_eq_true, if_false, Except.bind]
  cases h1 : db.sectors.find? (fun s => s.name == n && s.creator == u && s.deleted == false) with
  | some s1 => simp
  | none =>
    simp only []
    cases h2 : db.sectors.find?
        (fun s => ciEqS s.name n && s.creator == u && s.deleted == false) with
    | some s2 => simp
    | none =>
      simp only []
      by_cases hp : ("Sector ".data).isPrefixOf n.data
      · simp only [hp, if_true, Except.map]
        cases h3 : (db.sectors.filter (fun s => s.creator == u && s.deleted == false)).find?
            (fun s => (sectorNumToken n).isSuffixOf s.name.data) with
        | some s3 => simp
        | none => simp
      · simp [hp]

/-- A backend failure during sector resolution is swallowed into None. -/
theorem parse_sector_id_failing (db : Db) (n u : String) (hf : db.failing = true) :
    parse_sector_id db n u = none := by
  unfold parse_sector_id parse_sector_idE findExactSector
  rw [hf]
  simp [Except.bind]

/-- A successful sector resolution implies the backend was live. -/
theorem parse_sector_id_some_not_failing (db : Db) (n u sid : String)
    (h : parse_sector_id db n u = some sid) : db.failing = false := by
  by_cases hf : db.failing
  · rw [parse_sector_id_failing db n u (by simpa using hf)] at h
    cases h
  · simpa using hf

/-- C1: every identifier returned by parse_sector_id, at any of its lookup
tiers, belongs to a sector owned by the requesting user with the soft-delete
flag false; in particular, when sector identifiers are unique, the resolver
never returns a sector of a different user. -/
theorem sector_resolution_owner_scoped (db : Db) (tok u : String) :
    (∀ sid, parse_sector_id db tok u = some sid →
       ∃ s, s ∈ db.sectors ∧ s.sid = sid ∧ s.creator = u ∧ s.deleted = false) ∧
    (∀ u2 s2, u ≠ u2 → s2 ∈ db.sectors → s2.creator = u2 →
       (∀ s, s ∈ db.sectors → s.sid = s2.sid → s = s2) →
       parse_sector_id db tok u ≠ some s2.sid) := by
  have main : ∀ sid, parse_sector_id db tok u = some sid →
      ∃ s, s ∈ db.sectors ∧ s.sid = sid ∧ s.creator = u ∧ s.deleted = false := by
    intro sid h
    have hf : db.failing = false := parse_sector_id_some_not_failing db tok u sid h
    rw [parse_sector_id_eq_pure db tok u hf] at h
    cases h1 : db.sectors.find?
        (fun s => s.name == tok && s.creator == u && s.deleted == false) with
    | some s1 =>
      rw [h1] at h
      simp only [Option.some.injEq] at h
      have hp := List.find?_some h1
      have hm := List.mem_of_find?_eq_some h1
      simp only [Bool.and_eq_true, beq_iff_eq] at hp
      exact ⟨s1, hm, h, hp.1.2, hp.2⟩
    | none =>
      rw [h1] at h
      cases h2 : db.sectors.find?
          (fun s => ciEqS s.name tok && s.creator == u && s.deleted == false) with
      | some s2 =>
        rw [h2] at h
        simp only [Option.some.injEq] at h
        have hp := List.find?_some h2
        have hm := List.mem_of_find?_eq_some h2
        simp only [Bool.and_eq_true, beq_iff_eq] at hp
        exact ⟨s2, hm, h, hp.1.2, hp.2⟩
      | none =>
        rw [h2] at h
        by_cases hpre : ("Sector ".data).isPrefixOf tok.data
        · rw [if_pos hpre] at h
          cases h3 : (db.sectors.filter (fun s => s.creator == u && s.deleted == false)).find?
              (fun s => (sectorNumToken tok).isSuffixOf s.name.data) with
          | some s3 =>
            rw [h3] at h
            simp only [Option.some.injEq] at h
            have hm := List.mem_of_find?_eq_some h3
            rw [List.mem_filter] at hm
            have hp := hm.2
            simp only [Bool.and_eq_true, beq_iff_eq] at hp
            exact ⟨s3, hm.1, h, hp.1, hp.2⟩
          | none =>
            rw [h3] at h
            cases h
        · rw [if_neg hpre] at h
          cases h
  refine ⟨main, ?_⟩
  intro u2 s2 hne hmem hcr huniq hcontra
  obtain ⟨s, hsmem, hsid, hscr, _⟩ := main s2.sid hcontra
  have hs2 : s = s2 := huniq s hsmem hsid
  rw [hs2] at hscr
  exact hne (hscr.symm.trans hcr)

/-- C1 witness: a concrete resolution lands on a live sector of the
requesting user, and a same-named sector of another user is never returned. -/
theorem sector_resolution_owner_scoped_witness :
    (∃ s, s ∈ dbOwnerA.sectors ∧ s.sid = "sid1" ∧ s.creator = "u1" ∧ s.deleted = false) ∧
    parse_sector_id dbOwnerB "Sector 1" "u1" ≠
      some (Sector.sid ⟨"sidB", "Sector 1", "u2", false⟩) := by
  constructor
  · exact (sector_resolution_owner_scoped dbOwnerA "Sector 1" "u1").1 "sid1" (by rfl)
  · exact (sector_resolution_owner_scoped dbOwnerB "Sector 1" "u1").2 "u2"
      ⟨"sidB", "Sector 1", "u2", false⟩ (by decide) (by decide) (by decide) (by decide)

/-- C5: the three lookup tiers are consulted in strict order, each only when
the previous found nothing: an exact hit is returned outright, a
case-insensitive hit is returned whenever the exact tier found nothing, and
the numeric-suffix scan decides the result only when both earlier tiers
found nothing. -/
theorem sector_tiers_strict_order (db : Db) (tok u : String) :
    (∀ s1, findExactSector db tok u = .ok (some s1) →
       parse_sector_id db tok u = some s1.sid) ∧
    (∀ s2, findExactSector db tok u = .ok none → findCiSector db tok u = .ok (some s2) →
       parse_sector_id db tok u = some s2.sid) ∧
    (findExactSector db tok u = .ok none → findCiSector db tok u = .ok none →
       parse_sector_id db tok u =
         (match findSuffixSector db tok u with
          | .ok (some s) => some s.sid
          | .ok none => none
          | .error _ => none)) := by
  refine ⟨?_, ?_, ?_⟩
  · intro s1 h1
    unfold parse_sector_id parse_sector_idE
    rw [h1]
    simp [Except.bind]
  · intro s2 h1 h2
    unfold parse_sector_id parse_sector_idE
    rw [h1]
    simp only [Except.bind]
    rw [h2]
  · intro h1 h2
    unfold parse_sector_id parse_sector_idE
    rw [h1]
    simp only [Except.bind]
    rw [h2]
    simp only [Except.bind]
    cases h3 : findSuffixSector db tok u with
    | ok o => cases o <;> simp [Except.bind]
    | error e => simp [Except.bind]

/-- C5 witness: with no exact match, the case-insensitive tier resolves
Sector 2 to SECTOR 2 even though the suffix scan would have found Sector 12
first. -/
theorem sector_tiers_strict_order_witness :
    parse_sector_id dbCiWins "Sector 2" "u" =
      some (Sector.sid ⟨"sA", "SECTOR 2", "u", false⟩) := by
  exact (sector_tiers_strict_order dbCiWins "Sector 2" "u").2.1
    ⟨"sA", "SECTOR 2", "u", false⟩ (by rfl) (by rfl)

/-- C3 counterexample: this message matches the AddLog pattern, yet
detect_intent classifies it as ListWarehousesInSector, because that
single-entity pattern is tried first. -/
theorem addlog_shadowed_counterexample :
    (addLogSearch shadowedMsg).isSome = true ∧
    detect_intent shadowedMsg = Intent.list_warehouses_in_sector "Sector 5" := by
  exact ⟨rfl, rfl⟩

/-- C3 amended: a message matching the AddLog pattern is classified AddLog
with its two canonicalized tokens, provided no sector-list pattern and no
warehouses-in-sector pattern matches anywhere in it; when the
warehouses-in-sector pattern also matches, that earlier pattern wins. -/
theorem addlog_unshadowed_classification (msg : String) (g1 g2 : List Char)
    (h0 : sectorListMatches msg = false)
    (h1 : warehousesInSectorSearch msg = none)
    (h2 : addLogSearch msg = some (g1, g2)) :
    detect_intent msg = Intent.add_log (String.mk (canonWarehouseTok g1))
      (String.mk (canonSectorTok g2)) := by
  unfold detect_intent
  simp [h0, h1, h2]

/-- C3 witness: a plain AddLog message, not matching the earlier patterns,
is classified AddLog with canonicalized tokens. -/
theorem addlog_unshadowed_classification_witness :
    detect_intent "add new log in warehouse 1 in sector 2" =
      Intent.add_log "Warehouse 1" "Sector 2" := by
  rw [addlog_unshadowed_classification "add new log in warehouse 1 in sector 2"
    "1".data "2".data rfl rfl rfl]
  decide

/-- C10: the recall phrase what did i ask is never classified as
PreviousQuestions — the source pattern contains a literal capital I while
the message has been lowercased — so the turn answers with the unknown-intent
capability summary even though the question is recorded in the history. -/
theorem recall_trigger_case_bug :
    detect_intent "what did i ask" = Intent.unknown ∧
    replyOf (chat_endpoint "T0" srvFresh "u" "what did i ask") =
      some "I\x27m your warehouse inventory assistant. I can help with:\n- Showing your sectors list\n- Showing warehouses in a sector\n- Adding inventory logs\n\nCould you please phrase your request related to warehouse inventory management?" ∧
    questionsOf (chat_endpoint "T0" srvFresh "u" "what did i ask") "u" =
      some ["what did i ask"] := by
  exact ⟨rfl, rfl, rfl⟩

/-- C7 counterexample: with the backend failing, the turn replies with
NotFound's specific wording — not a generic try-again message — even though
the requested sector exists and is owned by the user. -/
theorem store_failure_counterexample :
    replyOf (chat_endpoint "T0" srvC7Fail "u" "warehouses in sector 5") =
      some "I couldn\x27t find Sector Sector 5 in your account." := by
  rfl

/-- C7 amended: when every backend lookup fails, the turn handler does not
raise — parse_sector_id swallows the error into None — and the reply for a
sector-referencing turn is NotFound's specific wording rather than a
generic try-again message. -/
theorem store_failure_notfound_reply (srv : ServerState) (uid sn now content : String)
    (hfail : srv.db.failing = true)
    (hstage : (lookupD srv.conversation_states uid (initConversationState now)).stage ≠
      "collecting_inventory")
    (hint : detect_intent content = Intent.list_warehouses_in_sector sn) :
    parse_sector_id srv.db sn uid = none ∧
    ∃ srv2, chat_endpoint now srv uid content =
      .ok (srv2, "I couldn\x27t find Sector " ++ sn ++ " in your account.") := by
  have hnone := parse_sector_id_failing srv.db sn uid hfail
  refine ⟨hnone, Exists.intro
    { db := srv.db
      conversation_states := setK srv.conversation_states uid
          (lookupD srv.conversation_states uid (initConversationState now))
      user_questions := setK srv.user_questions uid
          (if String.mk (pyStripL (List.map pyLower content.data)) =
                "what were my previous questions?" ∨
              String.mk (pyStripL (List.map pyLower content.data)) = "what did i ask before?" then
            lookupD srv.user_questions uid []
          else dequeAppend (lookupD srv.user_questions uid []) content)
      user_responses := setK srv.user_responses uid
          (dequeAppend (lookupD srv.user_responses uid [])
            ("I couldn\x27t find Sector " ++ sn ++ " in your account.")) } ?_⟩
  simp [chat_endpoint, finishTurn, hstage, hint, hnone]

/-- C7 witness: the amended statement at the concrete failing store. -/
theorem store_failure_notfound_reply_witness :
    parse_sector_id srvC7Fail.db "Sector 5" "u" = none ∧
    ∃ srv2, chat_endpoint "T0" srvC7Fail "u" "warehouses in sector 5" =
      .ok (srv2, "I couldn\x27t find Sector " ++ "Sector 5" ++ " in your account.") :=
  store_failure_notfound_reply srvC7Fail "u" "Sector 5" "T0" "warehouses in sector 5"
    rfl (by decide) rfl

/-- A successful AddLog start: the session moves into collecting_inventory
with the filtered columns, cursor zero and the record untouched. -/
theorem addlog_start_shape (srv : ServerState) (uid msg now wn sn sid wid : String)
    (cols : List Column) (first_column : Column) (rest : List Column)
    (st0 : ConversationState)
    (hst : lookupD srv.conversation_states uid (initConversationState now) = st0)
    (hstage : st0.stage ≠ "collecting_inventory")
    (hint : detect_intent msg = Intent.add_log wn sn)
    (hsec : parse_sector_id srv.db sn uid = some sid)
    (hwh : parse_warehouse_id srv.db wn sid uid = some wid)
    (hcols : get_warehouse_columns srv.db wid = some cols)
    (hinv : cols.filter (fun c => !(c.dataIndex == "day")) = first_column :: rest) :
    chat_endpoint now srv uid msg = .ok
      (turnResult srv uid srv.db (startedState st0 wid sid (first_column :: rest))
         (storedQuestions srv uid msg)
         ("Please provide inventory count for " ++ first_column.title ++ "."),
       "Please provide inventory count for " ++ first_column.title ++ ".") := by
  simp [chat_endpoint, finishTurn, turnResult, startedState, storedQuestions,
    hst, hstage, hint, hsec, hwh, hcols, hinv]

/-- A mid-collection numeric reply: the value is stored under the cursor
column's key and the cursor advances; the session stays collecting. -/
theorem collect_step_mid (srv : ServerState) (uid msg now : String)
    (st0 : ConversationState) (col nc : Column)
    (hst : lookupD srv.conversation_states uid (initConversationState now) = st0)
    (hstage : st0.stage = "collecting_inventory")
    (hnum : isPyFloat msg.data = true)
    (hcol : st0.pending_columns[st0.current_column_index]? = some col)
    (hlt : ¬ st0.current_column_index + 1 ≥ st0.pending_columns.length)
    (hnext : st0.pending_columns[st0.current_column_index + 1]? = some nc) :
    chat_endpoint now srv uid msg = .ok
      (turnResult srv uid srv.db
         (stepState st0 col.dataIndex (PyVal.num (String.mk (pyStripL msg.data))))
         (storedQuestions srv uid msg)
         ("Thanks, now please provide inventory count for " ++ nc.title ++ "."),
       "Thanks, now please provide inventory count for " ++ nc.title ++ ".") := by
  simp [chat_endpoint, finishTurn, turnResult, stepState, storedQuestions,
    hst, hstage, hnum, hcol, hlt, hnext]

/-- The final numeric reply of a collection: one log document is inserted
for the user and active warehouse, and the session is reset to its idle
defaults with a freshly seeded record. -/
theorem collect_step_done (srv : ServerState) (uid msg now wid : String)
    (st0 : ConversationState) (col : Column)
    (hst : lookupD srv.conversation_states uid (initConversationState now) = st0)
    (hstage : st0.stage = "collecting_inventory")
    (hnum : isPyFloat msg.data = true)
    (hcol : st0.pending_columns[st0.current_column_index]? = some col)
    (hge : st0.current_column_index + 1 ≥ st0.pending_columns.length)
    (hwid : st0.warehouse_id = some wid) :
    chat_endpoint now srv uid msg = .ok
      (turnResult srv uid
         (add_log_data srv.db wid uid
           (setK st0.log_data col.dataIndex (PyVal.num (String.mk (pyStripL msg.data)))))
         (initConversationState now) (storedQuestions srv uid msg)
         "Thanks, your log has been added successfully.",
       "Thanks, your log has been added successfully.") := by
  simp [chat_endpoint, finishTurn, turnResult, storedQuestions,
    hst, hstage, hnum, hcol, hge, hwid]

/-- C4: a reply whose trimmed text does not parse as a float during
collecting_inventory yields the fixed error message and leaves the session
record — stage, cursor, pending columns, active identifiers and the
accumulating record — unchanged; the store is untouched. -/
theorem invalid_reply_keeps_session (srv : ServerState) (uid content now : String)
    (st0 : ConversationState)
    (hst : lookupD srv.conversation_states uid (initConversationState now) = st0)
    (hstage : st0.stage = "collecting_inventory")
    (hbad : isPyFloat content.data = false) :
    ∃ srv2, chat_endpoint now srv uid content =
      .ok (srv2, "Please provide a valid number for the inventory count.") ∧
      srv2.db = srv.db ∧
      (∀ d, lookupD srv2.conversation_states uid d = st0) := by
  refine ⟨turnResult srv uid srv.db st0 (storedQuestions srv uid content)
    "Please provide a valid number for the inventory count.", ?_, rfl, ?_⟩
  · simp [chat_endpoint, finishTurn, turnResult, storedQuestions, hst, hstage, hbad]
  · intro d
    exact lookupD_setK srv.conversation_states uid st0 d

set_option maxHeartbeats 2000000 in
/-- C2: from an idle session, an AddLog request that resolves to a
warehouse whose non-day columns are A, B, C, followed by three replies that
parse as numbers, inserts exactly one log record — owned by the user, for
the active warehouse, with key set day, A, B, C — and resets the session to
its idle defaults. -/
theorem collection_completes_one_record
    (srv : ServerState) (uid msg m1 m2 m3 n1 n2 n3 n4 ts wn sn sid wid : String)
    (cols : List Column) (cA cB cC : Column) (st0 : ConversationState)
    (hst : lookupD srv.conversation_states uid (initConversationState n1) = st0)
    (hstage : st0.stage ≠ "collecting_inventory")
    (hld : st0.log_data = [("day", PyVal.str ts)])
    (hint : detect_intent msg = Intent.add_log wn sn)
    (hsec : parse_sector_id srv.db sn uid = some sid)
    (hwh : parse_warehouse_id srv.db wn sid uid = some wid)
    (hcols : get_warehouse_columns srv.db wid = some cols)
    (hinv : cols.filter (fun c => !(c.dataIndex == "day")) = [cA, cB, cC])
    (h1 : isPyFloat m1.data = true)
    (h2 : isPyFloat m2.data = true)
    (h3 : isPyFloat m3.data = true) :
    ∃ srv1 r1 srv2 r2 srv3 r3 srv4 rec,
      chat_endpoint n1 srv uid msg = .ok (srv1, r1) ∧
      chat_endpoint n2 srv1 uid m1 = .ok (srv2, r2) ∧
      chat_endpoint n3 srv2 uid m2 = .ok (srv3, r3) ∧
      chat_endpoint n4 srv3 uid m3 =
        .ok (srv4, "Thanks, your log has been added successfully.") ∧
      srv4.db.logdatas = srv.db.logdatas ++ [⟨wid, uid, rec⟩] ∧
      (∀ k, k ∈ rec.map Prod.fst ↔
        (k = "day" ∨ k = cA.dataIndex ∨ k = cB.dataIndex ∨ k = cC.dataIndex)) ∧
      (∀ d, (lookupD srv4.conversation_states uid d).stage = "initial" ∧
            (lookupD srv4.conversation_states uid d).warehouse_id = none ∧
            (lookupD srv4.conversation_states uid d).sector_id = none ∧
            (lookupD srv4.conversation_states uid d).pending_columns = [] ∧
            (lookupD srv4.conversation_states uid d).current_column_index = 0) := by
  have hfail : srv.db.failing = false :=
    parse_sector_id_some_not_failing srv.db sn uid sid hsec
  have p1 := addlog_start_shape srv uid msg n1 wn sn sid wid cols cA [cB, cC] st0
    hst hstage hint hsec hwh hcols hinv
  set ST1 : ConversationState := startedState st0 wid sid [cA, cB, cC] with hST1
  set SRV1 : ServerState := turnResult srv uid srv.db ST1 (storedQuestions srv uid msg)
    ("Please provide inventory count for " ++ cA.title ++ ".") with hSRV1
  have hst1 : lookupD SRV1.conversation_states uid (initConversationState n2) = ST1 := by
    simp only [hSRV1, turnResult]
    exact lookupD_setK _ _ _ _
  have hstage1 : ST1.stage = "collecting_inventory" := by rw [hST1]; rfl
  have hcol1 : ST1.pending_columns[ST1.current_column_index]? = some cA := by rw [hST1]; rfl
  have hlt1 : ¬ ST1.current_column_index + 1 ≥ ST1.pending_columns.length := by
    rw [hST1]
    show ¬ 0 + 1 ≥ 3
    decide
  have hnext1 : ST1.pending_columns[ST1.current_column_index + 1]? = some cB := by
    rw [hST1]; rfl
  have p2 := collect_step_mid SRV1 uid m1 n2 ST1 cA cB hst1 hstage1 h1 hcol1 hlt1 hnext1
  set ST2 : ConversationState :=
    stepState ST1 cA.dataIndex (PyVal.num (String.mk (pyStripL m1.data))) with hST2
  set SRV2 : ServerState := turnResult SRV1 uid SRV1.db ST2 (storedQuestions SRV1 uid m1)
    ("Thanks, now please provide inventory count for " ++ cB.title ++ ".") with hSRV2
  have hst2 : lookupD SRV2.conversation_states uid (initConversationState n3) = ST2 := by
    simp only [hSRV2, turnResult]
    exact lookupD_setK _ _ _ _
  have hstage2 : ST2.stage = "collecting_inventory" := by rw [hST2, hST1]; rfl
  have hcol2 : ST2.pending_columns[ST2.current_column_index]? = some cB := by
    rw [hST2, hST1]; rfl
  have hlt2 : ¬ ST2.current_column_index + 1 ≥ ST2.pending_columns.length := by
    rw [hST2, hST1]
    show ¬ 0 + 1 + 1 ≥ 3
    decide
  have hnext2 : ST2.pending_columns[ST2.current_column_index + 1]? = some cC := by
    rw [hST2, hST1]; rfl
  have p3 := collect_step_mid SRV2 uid m2 n3 ST2 cB cC hst2 hstage2 h2 hcol2 hlt2 hnext2
  set ST3 : ConversationState :=
    stepState ST2 cB.dataIndex (PyVal.num (String.mk (pyStripL m2.data))) with hST3
  set SRV3 : ServerState := turnResult SRV2 uid SRV2.db ST3 (storedQuestions SRV2 uid m2)
    ("Thanks, now please provide inventory count for " ++ cC.title ++ ".") with hSRV3
  have hst3 : lookupD SRV3.conversation_states uid (initConversationState n4) = ST3 := by
    simp only [hSRV3, turnResult]
    exact lookupD_setK _ _ _ _
  have hstage3 : ST3.stage = "collecting_inventory" := by rw [hST3, hST2, hST1]; rfl
  have hcol3 : ST3.pending_columns[ST3.current_column_index]? = some cC := by
    rw [hST3, hST2, hST1]; rfl
  have hge3 : ST3.current_column_index + 1 ≥ ST3.pending_columns.length := by
    rw [hST3, hST2, hST1]
    show 0 + 1 + 1 + 1 ≥ 3
    decide
  have hwid3 : ST3.warehouse_id = some wid := by rw [hST3, hST2, hST1]; rfl
  have p4 := collect_step_done SRV3 uid m3 n4 wid ST3 cC hst3 hstage3 h3 hcol3 hge3 hwid3
  refine ⟨SRV1, _, SRV2, _, SRV3, _, _,
    setK ST3.log_data cC.dataIndex (PyVal.num (String.mk (pyStripL m3.data))),
    p1, p2, p3, p4, ?_, ?_, ?_⟩
  · simp only [turnResult, hSRV3, hSRV2, hSRV1]
    simp [add_log_data, hfail]
  · intro k
    simp only [hST3, hST2, hST1, stepState, startedState, hld]
    rw [mem_keys_setK, mem_keys_setK, mem_keys_setK]
    simp only [List.map_cons, List.map_nil, List.mem_singleton]
    tauto
  · intro d
    simp only [turnResult]
    rw [lookupD_setK]
    exact ⟨rfl, rfl, rfl, rfl, rfl⟩

/-- C2 witness: the full four-turn scenario on the concrete store. -/
theorem collection_completes_one_record_witness :
    ∃ srv1 r1 srv2 r2 srv3 r3 srv4 rec,
      chat_endpoint "T1" srvC2 "uu" "add new log in warehouse 1 in sector 1" =
        .ok (srv1, r1) ∧
      chat_endpoint "T2" srv1 "uu" "50" = .ok (srv2, r2) ∧
      chat_endpoint "T3" srv2 "uu" "12.5" = .ok (srv3, r3) ∧
      chat_endpoint "T4" srv3 "uu" "7" =
        .ok (srv4, "Thanks, your log has been added successfully.") ∧
      srv4.db.logdatas = srvC2.db.logdatas ++ [⟨"w1", "uu", rec⟩] ∧
      (∀ k, k ∈ rec.map Prod.fst ↔
        (k = "day" ∨ k = "qty" ∨ k = "weight" ∨ k = "volume")) ∧
      (∀ d, (lookupD srv4.conversation_states "uu" d).stage = "initial" ∧
            (lookupD srv4.conversation_states "uu" d).warehouse_id = none ∧
            (lookupD srv4.conversation_states "uu" d).sector_id = none ∧
            (lookupD srv4.conversation_states "uu" d).pending_columns = [] ∧
            (lookupD srv4.conversation_states "uu" d).current_column_index = 0) :=
  collection_completes_one_record srvC2 "uu" "add new log in warehouse 1 in sector 1"
    "50" "12.5" "7" "T1" "T2" "T3" "T4" "T1" "Warehouse 1" "Sector 1" "s1" "w1"
    [⟨"Day", "day"⟩, ⟨"qty", "qty"⟩, ⟨"weight", "weight"⟩, ⟨"volume", "volume"⟩]
    ⟨"qty", "qty"⟩ ⟨"weight", "weight"⟩ ⟨"volume", "volume"⟩ (initConversationState "T1")
    rfl (by decide) rfl rfl rfl rfl rfl rfl rfl rfl rfl

/-- C6 counterexample: the session is created at T0 by a greeting turn, the
AddLog sub-dialog starts at T1, and the persisted record carries day = T0 —
the session-creation timestamp, not the sub-dialog start time T1. -/
theorem day_seed_counterexample :
    (runTurns "u" srvC6
        [("T0", "hello"), ("T1", "add new log in warehouse 1 in sector 1"), ("T2", "5")]).map
        (fun s => s.db.logdatas) =
      some [⟨"w1", "u", [("day", PyVal.str "T0"), ("qty", PyVal.num "5")]⟩] ∧
    ("T0" : String) ≠ "T1" := by
  exact ⟨rfl, by decide⟩

/-- C6 amended: the AddLog start transition leaves the accumulating record
exactly as it was — the record is seeded with the current timestamp only
when the session is created (and again by the completion reset), so the
persisted day value is that earlier timestamp, not the sub-dialog start
time. -/
theorem addlog_start_keeps_record (srv : ServerState)
    (uid msg now wn sn sid wid : String) (cols : List Column)
    (first_column : Column) (rest : List Column) (st0 : ConversationState)
    (hst : lookupD srv.conversation_states uid (initConversationState now) = st0)
    (hstage : st0.stage ≠ "collecting_inventory")
    (hint : detect_intent msg = Intent.add_log wn sn)
    (hsec : parse_sector_id srv.db sn uid = some sid)
    (hwh : parse_warehouse_id srv.db wn sid uid = some wid)
    (hcols : get_warehouse_columns srv.db wid = some cols)
    (hinv : cols.filter (fun c => !(c.dataIndex == "day")) = first_column :: rest) :
    (∃ srv1 r1, chat_endpoint now srv uid msg = .ok (srv1, r1) ∧
       (∀ d, (lookupD srv1.conversation_states uid d).log_data = st0.log_data)) ∧
    (initConversationState now).log_data = [("day", PyVal.str now)] := by
  constructor
  · refine ⟨_, _,
      addlog_start_shape srv uid msg now wn sn sid wid cols first_column rest st0
        hst hstage hint hsec hwh hcols hinv, ?_⟩
    intro d
    simp only [turnResult]
    rw [lookupD_setK]
    rfl
  · rfl

/-- C6 witness: the amended statement at the concrete store, from a fresh
session created at T1. -/
theorem addlog_start_keeps_record_witness :
    (∃ srv1 r1,
       chat_endpoint "T1" srvC6 "u" "add new log in warehouse 1 in sector 1" =
         .ok (srv1, r1) ∧
       (∀ d, (lookupD srv1.conversation_states "u" d).log_data =
         (initConversationState "T1").log_data)) ∧
    (initConversationState "T1").log_data = [("day", PyVal.str "T1")] :=
  addlog_start_keeps_record srvC6 "u" "add new log in warehouse 1 in sector 1"
    "T1" "Warehouse 1" "Sector 1" "s1" "w1" [⟨"Day", "day"⟩, ⟨"qty", "qty"⟩]
    ⟨"qty", "qty"⟩ [] (initConversationState "T1")
    rfl (by decide) rfl rfl rfl rfl rfl

/-- C4 witness: the empty string, a word and two numbers all fail the float
parse, and a word reply mid-collection leaves the session untouched. -/
theorem invalid_reply_keeps_session_witness :
    isPyFloat "".data = false ∧
    isPyFloat "1 2".data = false ∧
    (∃ srv2, chat_endpoint "T1" srvC4 "u" "abc" =
       .ok (srv2, "Please provide a valid number for the inventory count.") ∧
       srv2.db = srvC4.db ∧
       (∀ d, lookupD srv2.conversation_states "u" d =
         ⟨"collecting_inventory", some "w1", some "s1", [⟨"qty", "qty"⟩], 0,
          [("day", PyVal.str "T0")]⟩)) :=
  ⟨rfl, rfl,
   invalid_reply_keeps_session srvC4 "u" "abc" "T1"
     ⟨"collecting_inventory", some "w1", some "s1", [⟨"qty", "qty"⟩], 0,
      [("day", PyVal.str "T0")]⟩ rfl rfl rfl⟩
